import Mathlib

/-!
Shallow embedding of the two connection orchestrators of
`adp-connection-node`:

* `ClientCredentialsConnection` — `src/unnamed/part_000` (the
  client-credentials variant of `lib/`)
* `AuthorizationCodeConnection` — `src/lib/authorizationCode.js`

JavaScript-value conventions used throughout:

* a possibly-`undefined` string field is an `Option String`; JS truthiness
  of such a value (`undefined` and `""` are falsy) is `jsTruthy`;
* `fs.readFileSync` is modelled by an abstract file system
  `fs : String → Option String`; `none` is a thrown read error, and reading
  an `undefined` path also throws;
* `JSON` numbers occurring here are integers (`Int`); a JS `Date` is its
  epoch time in whole seconds (`Nat` for "now", `Int` for computed
  instants).  `date.getSeconds()` is the seconds component `now % 60`, and
  `date.setSeconds(v)` replaces that component with `v`, rolling over:
  the resulting instant is `now - now % 60 + v`;
* the stored completion callback `this.cb` is an opaque identifier
  (`Option Nat`; `none` means no function is stored), and an invocation of
  it is recorded as an event `(exception?, token?)` in an emitted list, so
  "invoked exactly once" is "the emitted list has exactly one element";
* a code path that throws a `TypeError` (reading `.body` of `undefined`,
  calling `undefined` as a function) makes the modelled function return
  `none`.
-/

/-- JS truthiness of a possibly-undefined string: `undefined` and the
empty string are falsy. -/
def jsTruthy : Option String → Bool
  | none => false
  | some s => !s.isEmpty

/-- JS `[a, b].filter(Boolean)` over possibly-undefined strings: keep the
truthy ones. -/
def jsFilterBoolean : List (Option String) → List String
  | [] => []
  | none :: rest => jsFilterBoolean rest
  | some s :: rest =>
      if s.isEmpty then jsFilterBoolean rest else s :: jsFilterBoolean rest

/-- `fs.readFileSync(path)`: throws (`none`) when the path is `undefined`
or the file system errors on it. -/
def readFileSync (fs : String → Option String) : Option String → Option String
  | none => none
  | some p => fs p

/-- The JS expression `inlineStr || fs.readFileSync(path)` used for every
piece of TLS material in the request builders: the inline string when it is
truthy, otherwise the content of the file at `path`. -/
def resolveMaterial (fs : String → Option String)
    (inlineStr path : Option String) : Option String :=
  if jsTruthy inlineStr then inlineStr else readFileSync fs path

/-- The connected `ADPAPIConnection` instance handed to either connection
constructor: the configuration both variants read from `conn`. -/
structure ADPAPIConnection where
  granttype : String
  tokenUrl : String
  clientId : String
  clientSecret : String
  authorizationCode : String
  callbackUrl : String
  sslCertPath : Option String
  sslKeyPath : Option String
  sslCertString : Option String
  sslKeyString : Option String
deriving DecidableEq, Repr

/-- A token response body: `access_token` and `expires_in` may each be
absent. Other response fields are opaque to the connection code. -/
structure Token where
  access_token : Option String
  expires_in : Option Int
deriving DecidableEq, Repr

/-- The `response` member of a transport error; its `body` may be absent. -/
structure ErrResponse where
  body : Option String
deriving DecidableEq, Repr

/-- A transport error as delivered by `Post`: `statusCode`, and a
`response` object that may itself be absent. -/
structure TransportErr where
  statusCode : Nat
  response : Option ErrResponse
deriving DecidableEq, Repr

/-- `ConnectionException` from `adp-core`, built from
`{statusCode: err.statusCode, oauthResponse: response.body}`. -/
structure ConnectionException where
  statusCode : Nat
  oauthResponse : Option String
deriving DecidableEq, Repr

/-- The `agentOptions` member of a request payload. -/
structure AgentOptions where
  ca : List String
  key : String
  cert : String
deriving DecidableEq, Repr

/-- The `auth` member of the client-credentials request payload. -/
structure BasicAuth where
  user : String
  pass : String
  sendImmediately : Bool
deriving DecidableEq, Repr

/-- The `form` member of a request payload.  The three builders populate
different subsets of fields; a field the builder does not write is absent
(`none`), as in the JS object literals. -/
structure Form where
  grant_type : String
  code : Option String := none
  redirect_uri : Option String := none
  client_id : Option String := none
  client_secret : Option String := none
  scope : Option String := none
  refresh_token : Option String := none
deriving DecidableEq, Repr

/-- A wire-level token request payload. -/
structure Payload where
  agentOptions : AgentOptions
  strictSSL : Bool
  auth : Option BasicAuth := none
  form : Form
deriving DecidableEq, Repr

/-- The decision `getCerts` makes before any transport call: hand the
listed paths to `readCerts`, or go straight to `getAccessToken`. -/
inductive CertsAction where
  | loadCerts (paths : List String) : CertsAction
  | requestToken : CertsAction
deriving DecidableEq, Repr

/-- One recorded invocation of the stored completion callback:
`(exception_or_undefined, token_or_undefined)`. -/
def CallbackCall := Option ConnectionException × Option Token
deriving instance DecidableEq, Repr for CallbackCall

/-- Mutable per-instance state of a `ClientCredentialsConnection`. -/
structure ClientCredentialsConnection.State where
  granttype : String
  cb : Option Nat
  tokenExpirationMs : Option Int
  tokenExpiration : Option Int
deriving DecidableEq, Repr

/-- Mutable per-instance state of an `AuthorizationCodeConnection`.  This
variant stores no `tokenExpirationMs`. -/
structure AuthorizationCodeConnection.State where
  granttype : String
  cb : Option Nat
  tokenExpiration : Option Int
deriving DecidableEq, Repr

/-- `getCerts` of the client-credentials variant:
`[conn.sslCertPath, conn.sslKeyPath].filter(Boolean)` is handed to
`readCerts` when non-empty, otherwise `getAccessToken` is called at
once. -/
def ClientCredentialsConnection.getCertsAction
    (conn : ADPAPIConnection) : CertsAction :=
  let certPaths := jsFilterBoolean [conn.sslCertPath, conn.sslKeyPath]
  if certPaths.length > 0 then .loadCerts certPaths else .requestToken

/-- `getCerts` of the authorization-code variant: same path filter and
branch as the client-credentials variant (the `refreshToken` argument is
merely threaded through to `getAccessToken`). -/
def AuthorizationCodeConnection.getCertsAction
    (conn : ADPAPIConnection) : CertsAction :=
  let certPaths := jsFilterBoolean [conn.sslCertPath, conn.sslKeyPath]
  if certPaths.length > 0 then .loadCerts certPaths else .requestToken

/-- `setTokenExpiration` of the client-credentials variant:
`tokenExpirationMs = (token.expires_in || default) * 1000`, then
`date.setSeconds(date.getSeconds() + tokenExpirationMs / 1000)`.
`token.expires_in` is falsy when absent or `0`. -/
def ClientCredentialsConnection.setTokenExpiration
    (st : ClientCredentialsConnection.State) (nowSec : Nat) (dflt : Int)
    (token : Token) : ClientCredentialsConnection.State :=
  let eff : Int :=
    match token.expires_in with
    | none => dflt
    | some n => if n = 0 then dflt else n
  let ms : Int := eff * 1000
  let s : Int := (nowSec : Int) % 60
  { st with
      tokenExpirationMs := some ms
      tokenExpiration := some ((nowSec : Int) - s + (s + ms / 1000)) }

/-- `setTokenExpiration` of the authorization-code variant:
`date.setSeconds(date.getSeconds() + token.expires_in || default)`.
Because `+` binds tighter than `||`, the fallback applies to the whole
sum: when `expires_in` is absent the sum is `NaN` (falsy) and the seconds
argument is just the default; when present the fallback only fires if the
sum happens to be `0`. -/
def AuthorizationCodeConnection.setTokenExpiration
    (st : AuthorizationCodeConnection.State) (nowSec : Nat) (dflt : Int)
    (token : Token) : AuthorizationCodeConnection.State :=
  let s : Int := (nowSec : Int) % 60
  let arg : Int :=
    match token.expires_in with
    | none => dflt
    | some n => if s + n = 0 then dflt else s + n
  { st with tokenExpiration := some ((nowSec : Int) - s + arg) }

/-- `parseTokenResponse` of the client-credentials variant.  Returns the
updated state and the list of callback invocations it performed.  This
handler never throws: `err.response || {}` tolerates a missing response
(its `body` is then `undefined`), and the callback is only called behind a
`typeof this.cb === 'function'` guard, after which `this.cb` is
deleted. -/
def ClientCredentialsConnection.parseTokenResponse
    (st : ClientCredentialsConnection.State) (nowSec : Nat) (dflt : Int)
    (err : Option TransportErr) (token : Option Token) :
    ClientCredentialsConnection.State × List CallbackCall :=
  let ex : Option ConnectionException :=
    match err with
    | none => none
    | some e =>
      match e.response with
      | none => some ⟨e.statusCode, none⟩
      | some r => some ⟨e.statusCode, r.body⟩
  let st1 : ClientCredentialsConnection.State :=
    match token with
    | none => st
    | some t =>
      if jsTruthy t.access_token then
        ClientCredentialsConnection.setTokenExpiration st nowSec dflt t
      else st
  match st1.cb with
  | some _ => ({ st1 with cb := none }, [(ex, token)])
  | none => (st1, [])

/-- `parseTokenResponse` of the authorization-code variant.  `none` models
a thrown `TypeError`: this handler reads `err.response.body` without a
guard, and calls `this.cb` unconditionally; it does not delete `this.cb`
after the call. -/
def AuthorizationCodeConnection.parseTokenResponse
    (st : AuthorizationCodeConnection.State) (nowSec : Nat) (dflt : Int)
    (err : Option TransportErr) (token : Option Token) :
    Option (AuthorizationCodeConnection.State × List CallbackCall) :=
  let exOpt : Option (Option ConnectionException) :=
    match err with
    | none => some none
    | some e =>
      match e.response with
      | none => none
      | some r => some (some ⟨e.statusCode, r.body⟩)
  match exOpt with
  | none => none
  | some ex =>
    let st1 : AuthorizationCodeConnection.State :=
      match token with
      | none => st
      | some t =>
        if jsTruthy t.access_token then
          AuthorizationCodeConnection.setTokenExpiration st nowSec dflt t
        else st
    match st1.cb with
    | none => none
    | some _ => some (st1, [(ex, token)])

/-- `buildTokenRequestBody` of the client-credentials variant.  `none`
models a thrown file-read error while resolving TLS material. -/
def ClientCredentialsConnection.buildTokenRequestBody
    (fs : String → Option String) (conn : ADPAPIConnection) : Option Payload :=
  match resolveMaterial fs conn.sslCertString conn.sslCertPath,
        resolveMaterial fs conn.sslKeyString conn.sslKeyPath with
  | some certMat, some keyMat =>
      some { agentOptions := { ca := [certMat], key := keyMat, cert := certMat }
             strictSSL := false
             auth := some { user := conn.clientId, pass := conn.clientSecret,
                            sendImmediately := true }
             form := { grant_type := conn.granttype } }
  | _, _ => none

/-- `buildTokenRequestBody` of the authorization-code variant. -/
def AuthorizationCodeConnection.buildTokenRequestBody
    (fs : String → Option String) (conn : ADPAPIConnection) : Option Payload :=
  match resolveMaterial fs conn.sslCertString conn.sslCertPath,
        resolveMaterial fs conn.sslKeyString conn.sslKeyPath with
  | some certMat, some keyMat =>
      some { agentOptions := { ca := [certMat], key := keyMat, cert := certMat }
             strictSSL := false
             form := { grant_type := conn.granttype
                       code := some conn.authorizationCode
                       redirect_uri := some conn.callbackUrl
                       client_id := some conn.clientId
                       client_secret := some conn.clientSecret } }
  | _, _ => none

/-- `buildRefreshTokenRequestBody` of the authorization-code variant. -/
def AuthorizationCodeConnection.buildRefreshTokenRequestBody
    (fs : String → Option String) (conn : ADPAPIConnection)
    (refreshToken : String) : Option Payload :=
  match resolveMaterial fs conn.sslCertString conn.sslCertPath,
        resolveMaterial fs conn.sslKeyString conn.sslKeyPath with
  | some certMat, some keyMat =>
      some { agentOptions := { ca := [certMat], key := keyMat, cert := certMat }
             strictSSL := false
             form := { grant_type := "refresh_token"
                       refresh_token := some refreshToken
                       client_id := some conn.clientId
                       client_secret := some conn.clientSecret
                       scope := some "openid profile api" } }
  | _, _ => none

/-- The payload chosen by `getAccessToken` of the authorization-code
variant: `refreshToken ? buildRefreshTokenRequestBody(refreshToken) :
buildTokenRequestBody()`.  `refreshToken` is `none` on the `connect` path
and carries the caller's argument on the `refresh` path; tested by JS
truthiness, so an empty string selects the initial-grant builder. -/
def AuthorizationCodeConnection.getAccessTokenPayload
    (fs : String → Option String) (conn : ADPAPIConnection)
    (refreshToken : Option String) : Option Payload :=
  match refreshToken with
  | none => AuthorizationCodeConnection.buildTokenRequestBody fs conn
  | some rt =>
    if rt.isEmpty then AuthorizationCodeConnection.buildTokenRequestBody fs conn
    else AuthorizationCodeConnection.buildRefreshTokenRequestBody fs conn rt

/-- The payload a `refresh(refreshToken, cb)` invocation sends to the
transport: `refresh` threads its argument through `getCerts` into
`getAccessToken`, and the certificate branch does not alter the payload. -/
def AuthorizationCodeConnection.refreshRequestPayload
    (fs : String → Option String) (conn : ADPAPIConnection)
    (refreshToken : String) : Option Payload :=
  AuthorizationCodeConnection.getAccessTokenPayload fs conn (some refreshToken)

/-! ### Helper lemmas shared by the claim proofs -/

theorem ClientCredentialsConnection.setTokenExpiration_preserves_cb
    (st : ClientCredentialsConnection.State) (nowSec : Nat) (dflt : Int)
    (t : Token) :
    (ClientCredentialsConnection.setTokenExpiration st nowSec dflt t).cb = st.cb :=
  rfl

theorem AuthorizationCodeConnection.setTokenExpiration_keeps_cb
    (st : AuthorizationCodeConnection.State) (nowSec : Nat) (dflt : Int)
    (t : Token) :
    (AuthorizationCodeConnection.setTokenExpiration st nowSec dflt t).cb = st.cb :=
  rfl

/-! ### C5: no certificate paths configured means no certificate loading -/

/-- C5: for every connection configured with neither `sslCertPath` nor
`sslKeyPath`, `getCerts` never invokes the certificate loader — not even
with an empty path list — and proceeds directly to the token request, in
both connection variants. -/
theorem getCerts_skips_loader_without_paths (conn : ADPAPIConnection)
    (hcert : conn.sslCertPath = none) (hkey : conn.sslKeyPath = none) :
    ClientCredentialsConnection.getCertsAction conn = CertsAction.requestToken ∧
    AuthorizationCodeConnection.getCertsAction conn = CertsAction.requestToken := by
  constructor <;>
    simp [ClientCredentialsConnection.getCertsAction,
      AuthorizationCodeConnection.getCertsAction, jsFilterBoolean, hcert, hkey]

/-- C5 witness: a concrete connection with both certificate paths absent
(inline material supplied instead). -/
theorem getCerts_skips_loader_without_paths_witness :
    ClientCredentialsConnection.getCertsAction
        ⟨"client_credentials", "https://tok", "CID", "CSEC", "AC", "https://cb",
          none, none, some "CERT", some "KEY"⟩ = CertsAction.requestToken ∧
    AuthorizationCodeConnection.getCertsAction
        ⟨"client_credentials", "https://tok", "CID", "CSEC", "AC", "https://cb",
          none, none, some "CERT", some "KEY"⟩ = CertsAction.requestToken :=
  getCerts_skips_loader_without_paths
    ⟨"client_credentials", "https://tok", "CID", "CSEC", "AC", "https://cb",
      none, none, some "CERT", some "KEY"⟩ rfl rfl

/-! ### C1: expiration from a numeric `expires_in` -/

/-- C1 counterexample: the claim quantifies over every numeric
`expires_in = N`, but at `N = 0` (a numeric value, falsy in JS) the
client-credentials variant falls back to the default instead of computing
`now + 0`: with `now = 100` and default `3600` the stored expiration is
`3700`, and `tokenExpirationMs` is `3600000`, not `0`. -/
theorem expiration_zero_expires_in_counterexample :
    (ClientCredentialsConnection.setTokenExpiration
        ⟨"client_credentials", some 0, none, none⟩ 100 3600
        ⟨some "abc", some 0⟩).tokenExpiration = some 3700 ∧
    (ClientCredentialsConnection.setTokenExpiration
        ⟨"client_credentials", some 0, none, none⟩ 100 3600
        ⟨some "abc", some 0⟩).tokenExpirationMs = some 3600000 ∧
    ((3700 : Int) ≠ 100 + 0 ∧ (3600000 : Int) ≠ 0 * 1000) := by
  refine ⟨rfl, rfl, by decide, by decide⟩

/-- C1 (amended): for every token response carrying a positive numeric
`expires_in = N`, both variants compute `tokenExpiration = now + N`
seconds, and the client-credentials variant additionally stores
`tokenExpirationMs = N * 1000`; the computation writes only these fields,
so a completed record is not changed afterwards. -/
theorem setTokenExpiration_now_plus_expires_in
    (stc : ClientCredentialsConnection.State)
    (sta : AuthorizationCodeConnection.State)
    (nowSec : Nat) (dflt : Int) (t : Token) (N : Int)
    (hN : 0 < N) (hexp : t.expires_in = some N) :
    (ClientCredentialsConnection.setTokenExpiration stc nowSec dflt
        t).tokenExpiration = some ((nowSec : Int) + N) ∧
    (ClientCredentialsConnection.setTokenExpiration stc nowSec dflt
        t).tokenExpirationMs = some (N * 1000) ∧
    (AuthorizationCodeConnection.setTokenExpiration sta nowSec dflt
        t).tokenExpiration = some ((nowSec : Int) + N) := by
  have hN0 : N ≠ 0 := by omega
  have hs : (nowSec : Int) % 60 + N ≠ 0 := by omega
  refine ⟨?_, ?_, ?_⟩ <;>
    simp [ClientCredentialsConnection.setTokenExpiration,
      AuthorizationCodeConnection.setTokenExpiration, hexp, hN0, hs] <;>
    omega

/-- C1 witness: `now = 100`, `expires_in = 3600`, default `7200`. -/
theorem setTokenExpiration_now_plus_expires_in_witness :
    (ClientCredentialsConnection.setTokenExpiration
        ⟨"client_credentials", some 0, none, none⟩ 100 7200
        ⟨some "abc", some 3600⟩).tokenExpiration = some ((100 : Int) + 3600) ∧
    (ClientCredentialsConnection.setTokenExpiration
        ⟨"client_credentials", some 0, none, none⟩ 100 7200
        ⟨some "abc", some 3600⟩).tokenExpirationMs = some (3600 * 1000) ∧
    (AuthorizationCodeConnection.setTokenExpiration
        ⟨"authorization_code", some 0, none⟩ 100 7200
        ⟨some "abc", some 3600⟩).tokenExpiration = some ((100 : Int) + 3600) :=
  setTokenExpiration_now_plus_expires_in
    ⟨"client_credentials", some 0, none, none⟩
    ⟨"authorization_code", some 0, none⟩ 100 7200
    ⟨some "abc", some 3600⟩ 3600 (by decide) rfl

/-! ### C2: fallback when `expires_in` is absent -/

/-- C2: when `expires_in` is absent, the client-credentials variant does
compute `now + default`, but the authorization-code variant evaluates
`date.getSeconds() + undefined || default` — `+` binds before `||` — and so
passes the bare default to `setSeconds`, replacing the seconds component
instead of adding: at `now = 90` (seconds component `30`) with default
`3600` it stores epoch `3660`, not `now + 3600 = 3690`. -/
theorem setTokenExpiration_missing_expires_in_eval :
    (ClientCredentialsConnection.setTokenExpiration
        ⟨"client_credentials", some 0, none, none⟩ 90 3600
        ⟨some "abc", none⟩).tokenExpiration = some ((90 : Int) + 3600) ∧
    (AuthorizationCodeConnection.setTokenExpiration
        ⟨"authorization_code", some 0, none⟩ 90 3600
        ⟨some "abc", none⟩).tokenExpiration = some 3660 ∧
    (3660 : Int) ≠ 90 + 3600 := by
  refine ⟨rfl, rfl, by decide⟩

/-! ### C3: transport failures surface statusCode and body unmodified -/

/-- C3: for every transport failure carrying a response object, the
callback receives a `ConnectionException` whose `statusCode` is the
transport error's `statusCode` and whose `oauthResponse` is the transport
error's response body, both unmodified, in both connection variants. -/
theorem parseTokenResponse_transport_error_unmodified
    (stc : ClientCredentialsConnection.State)
    (sta : AuthorizationCodeConnection.State) (c c' : Nat)
    (hc : stc.cb = some c) (hc' : sta.cb = some c')
    (nowSec : Nat) (dflt : Int) (e : TransportErr) (r : ErrResponse)
    (hr : e.response = some r) (token : Option Token) :
    (ClientCredentialsConnection.parseTokenResponse stc nowSec dflt
        (some e) token).2 = [(some ⟨e.statusCode, r.body⟩, token)] ∧
    (AuthorizationCodeConnection.parseTokenResponse sta nowSec dflt
        (some e) token).map Prod.snd
      = some [(some ⟨e.statusCode, r.body⟩, token)] := by
  have hcc : ∀ t, (ClientCredentialsConnection.setTokenExpiration stc nowSec
      dflt t).cb = some c := by
    intro t; rw [ClientCredentialsConnection.setTokenExpiration_preserves_cb, hc]
  have hac : ∀ t, (AuthorizationCodeConnection.setTokenExpiration sta nowSec
      dflt t).cb = some c' := by
    intro t; rw [AuthorizationCodeConnection.setTokenExpiration_keeps_cb, hc']
  cases token with
  | none =>
      simp [ClientCredentialsConnection.parseTokenResponse,
        AuthorizationCodeConnection.parseTokenResponse, hr, hc, hc']
  | some t =>
      by_cases ht : jsTruthy t.access_token <;>
        simp [ClientCredentialsConnection.parseTokenResponse,
          AuthorizationCodeConnection.parseTokenResponse, hr, ht,
          hcc, hac, hc, hc']

/-- C3 witness: HTTP 401 with body `{"error":"invalid_grant"}` and no
token, on concrete states holding a callback. -/
theorem parseTokenResponse_transport_error_unmodified_witness :
    (ClientCredentialsConnection.parseTokenResponse
        ⟨"client_credentials", some 0, none, none⟩ 100 3600
        (some ⟨401, some ⟨some "\x7b\"error\":\"invalid_grant\"\x7d"⟩⟩)
        none).2
      = [(some ⟨401, some "\x7b\"error\":\"invalid_grant\"\x7d"⟩, none)] ∧
    (AuthorizationCodeConnection.parseTokenResponse
        ⟨"authorization_code", some 1, none⟩ 100 3600
        (some ⟨401, some ⟨some "\x7b\"error\":\"invalid_grant\"\x7d"⟩⟩)
        none).map Prod.snd
      = some [(some ⟨401, some "\x7b\"error\":\"invalid_grant\"\x7d"⟩, none)] :=
  parseTokenResponse_transport_error_unmodified
    ⟨"client_credentials", some 0, none, none⟩
    ⟨"authorization_code", some 1, none⟩ 0 1 rfl rfl 100 3600
    ⟨401, some ⟨some "\x7b\"error\":\"invalid_grant\"\x7d"⟩⟩
    ⟨some "\x7b\"error\":\"invalid_grant\"\x7d"⟩ rfl none

/-! ### C9: the client-credentials handler tolerates a missing response -/

/-- C9: for a transport error delivered without a `response` object, the
client-credentials handler (which is a total function here: `err.response
|| {}` never throws) still constructs the `ConnectionException` — with an
absent `oauthResponse` body — and invokes the stored callback with it. -/
theorem parseTokenResponse_missing_response_tolerated
    (stc : ClientCredentialsConnection.State) (c : Nat)
    (hc : stc.cb = some c) (nowSec : Nat) (dflt : Int)
    (e : TransportErr) (he : e.response = none) (token : Option Token) :
    (ClientCredentialsConnection.parseTokenResponse stc nowSec dflt
        (some e) token).2 = [(some ⟨e.statusCode, none⟩, token)] ∧
    (ClientCredentialsConnection.parseTokenResponse stc nowSec dflt
        (some e) token).1.cb = none := by
  have hcc : ∀ t, (ClientCredentialsConnection.setTokenExpiration stc nowSec
      dflt t).cb = some c := by
    intro t; rw [ClientCredentialsConnection.setTokenExpiration_preserves_cb, hc]
  cases token with
  | none =>
      simp [ClientCredentialsConnection.parseTokenResponse, he, hc]
  | some t =>
      by_cases ht : jsTruthy t.access_token <;>
        simp [ClientCredentialsConnection.parseTokenResponse, he, ht, hcc, hc]

/-- C9 witness: a bare `{statusCode: 500}` transport error. -/
theorem parseTokenResponse_missing_response_tolerated_witness :
    (ClientCredentialsConnection.parseTokenResponse
        ⟨"client_credentials", some 0, none, none⟩ 100 3600
        (some ⟨500, none⟩) none).2 = [(some ⟨500, none⟩, none)] ∧
    (ClientCredentialsConnection.parseTokenResponse
        ⟨"client_credentials", some 0, none, none⟩ 100 3600
        (some ⟨500, none⟩) none).1.cb = none :=
  parseTokenResponse_missing_response_tolerated
    ⟨"client_credentials", some 0, none, none⟩ 0 rfl 100 3600
    ⟨500, none⟩ rfl none

/-! ### C7: soft token absence on transport success -/

/-- C7: for every transport success whose token is absent or lacks an
`access_token` field, neither variant constructs an exception: the
callback receives `(undefined, token)`, and no expiration is computed (the
client-credentials variant changes nothing but clearing its stored
callback; the authorization-code variant changes nothing at all). -/
theorem parseTokenResponse_soft_token_absence
    (stc : ClientCredentialsConnection.State)
    (sta : AuthorizationCodeConnection.State) (c c' : Nat)
    (hc : stc.cb = some c) (hc' : sta.cb = some c')
    (nowSec : Nat) (dflt : Int) (token : Option Token)
    (htok : token = none ∨ ∃ t, token = some t ∧ t.access_token = none) :
    ClientCredentialsConnection.parseTokenResponse stc nowSec dflt none token
      = ({ stc with cb := none }, [(none, token)]) ∧
    AuthorizationCodeConnection.parseTokenResponse sta nowSec dflt none token
      = some (sta, [(none, token)]) := by
  obtain rfl | ⟨t, rfl, ht⟩ := htok
  · simp [ClientCredentialsConnection.parseTokenResponse,
      AuthorizationCodeConnection.parseTokenResponse, hc, hc']
  · simp [ClientCredentialsConnection.parseTokenResponse,
      AuthorizationCodeConnection.parseTokenResponse, hc, hc', ht, jsTruthy]

/-- C7 witness: transport success with a token object that has no
`access_token` field. -/
theorem parseTokenResponse_soft_token_absence_witness :
    ClientCredentialsConnection.parseTokenResponse
        ⟨"client_credentials", some 0, none, none⟩ 100 3600 none
        (some ⟨none, some 3600⟩)
      = (⟨"client_credentials", none, none, none⟩,
          [(none, some ⟨none, some 3600⟩)]) ∧
    AuthorizationCodeConnection.parseTokenResponse
        ⟨"authorization_code", some 1, none⟩ 100 3600 none
        (some ⟨none, some 3600⟩)
      = some (⟨"authorization_code", some 1, none⟩,
          [(none, some ⟨none, some 3600⟩)]) :=
  parseTokenResponse_soft_token_absence
    ⟨"client_credentials", some 0, none, none⟩
    ⟨"authorization_code", some 1, none⟩ 0 1 rfl rfl 100 3600
    (some ⟨none, some 3600⟩) (Or.inr ⟨⟨none, some 3600⟩, rfl, rfl⟩)

/-! ### C6: exactly-once callback delivery and discarding -/

/-- C6 counterexample: the claim says both variants discard the stored
callback reference after invoking it, but the authorization-code variant
calls `this.cb(ex, token)` without any `delete this.cb`: after a
successful parse the state still holds the callback. -/
theorem parseTokenResponse_retains_cb_counterexample :
    (AuthorizationCodeConnection.parseTokenResponse
        ⟨"authorization_code", some 0, none⟩ 0 3600 none
        (some ⟨some "abc", some 10⟩)).map (fun res => res.1.cb)
      = some (some 0) ∧ (some 0 : Option Nat) ≠ none := by
  exact ⟨rfl, by decide⟩

/-- C6 (amended): for every completed token-request flow (transport
success, or failure whose error carries a response object), the stored
callback is invoked exactly once with `(exception_or_undefined, token)`;
the client-credentials variant then discards the stored callback
reference, while the authorization-code variant retains it. -/
theorem parseTokenResponse_invokes_callback_once
    (stc : ClientCredentialsConnection.State)
    (sta : AuthorizationCodeConnection.State) (c c' : Nat)
    (hc : stc.cb = some c) (hc' : sta.cb = some c')
    (nowSec : Nat) (dflt : Int) (err : Option TransportErr)
    (token : Option Token)
    (herr : err = none ∨ ∃ e r, err = some e ∧ e.response = some r) :
    (∃ ex, (ClientCredentialsConnection.parseTokenResponse stc nowSec dflt
        err token).2 = [(ex, token)]) ∧
    (ClientCredentialsConnection.parseTokenResponse stc nowSec dflt
        err token).1.cb = none ∧
    (∃ ex res, AuthorizationCodeConnection.parseTokenResponse sta nowSec dflt
        err token = some res ∧ res.2 = [(ex, token)] ∧ res.1.cb = some c') := by
  have hcc : ∀ t, (ClientCredentialsConnection.setTokenExpiration stc nowSec
      dflt t).cb = some c := by
    intro t; rw [ClientCredentialsConnection.setTokenExpiration_preserves_cb, hc]
  have hac : ∀ t, (AuthorizationCodeConnection.setTokenExpiration sta nowSec
      dflt t).cb = some c' := by
    intro t; rw [AuthorizationCodeConnection.setTokenExpiration_keeps_cb, hc']
  obtain rfl | ⟨e, r, rfl, hr⟩ := herr <;>
    cases token with
    | none =>
        (simp [ClientCredentialsConnection.parseTokenResponse,
          AuthorizationCodeConnection.parseTokenResponse, hc, hc', *];
          exact ⟨_, rfl⟩)
    | some t =>
        by_cases ht : jsTruthy t.access_token <;>
          simp [ClientCredentialsConnection.parseTokenResponse,
            AuthorizationCodeConnection.parseTokenResponse, ht, hcc, hac,
            hc, hc', *] <;>
          exact ⟨_, rfl⟩

/-- C6 witness: a successful client-credentials-style response on concrete
states holding callbacks. -/
theorem parseTokenResponse_invokes_callback_once_witness :
    (∃ ex, (ClientCredentialsConnection.parseTokenResponse
        ⟨"client_credentials", some 0, none, none⟩ 100 3600 none
        (some ⟨some "abc", some 3600⟩)).2 = [(ex, some ⟨some "abc", some 3600⟩)]) ∧
    (ClientCredentialsConnection.parseTokenResponse
        ⟨"client_credentials", some 0, none, none⟩ 100 3600 none
        (some ⟨some "abc", some 3600⟩)).1.cb = none ∧
    (∃ ex res, AuthorizationCodeConnection.parseTokenResponse
        ⟨"authorization_code", some 1, none⟩ 100 3600 none
        (some ⟨some "abc", some 3600⟩) = some res ∧
      res.2 = [(ex, some ⟨some "abc", some 3600⟩)] ∧ res.1.cb = some 1) :=
  parseTokenResponse_invokes_callback_once
    ⟨"client_credentials", some 0, none, none⟩
    ⟨"authorization_code", some 1, none⟩ 0 1 rfl rfl 100 3600 none
    (some ⟨some "abc", some 3600⟩) (Or.inl rfl)

/-! ### C4: the refresh request payload -/

/-- C4 counterexample: the claim quantifies over every
`refresh(refreshToken, cb)` invocation, but `getAccessToken` selects the
builder with `refreshToken ? … : …`, so the falsy empty-string refresh
token silently builds the initial authorization-code payload instead: its
`grant_type` is the connection's grant type and it carries the
connection's `authorizationCode`. -/
theorem refresh_empty_token_counterexample :
    (AuthorizationCodeConnection.refreshRequestPayload (fun _ => none)
        ⟨"authorization_code", "https://tok", "CID", "CSEC", "AUTHCODE",
          "https://cb", none, none, some "CERT", some "KEY"⟩ "").map
        (fun p => (p.form.grant_type, p.form.code))
      = some ("authorization_code", some "AUTHCODE") ∧
    ("authorization_code" : String) ≠ "refresh_token" ∧
    (some "AUTHCODE" : Option String) ≠ none := by
  refine ⟨rfl, by decide, by decide⟩

/-- C4 (amended): for every `refresh(refreshToken, cb)` invocation with a
truthy (non-empty) refresh token, the transport payload carries form
fields `grant_type = "refresh_token"`, the given `refresh_token`,
`client_id`, `client_secret` and the fixed scope string
`"openid profile api"`, and no `code` field: the connection's
`authorizationCode` is never included. -/
theorem refresh_payload_fields (fs : String → Option String)
    (conn : ADPAPIConnection) (rt : String) (hrt : rt ≠ "")
    (cm km : String)
    (hcm : resolveMaterial fs conn.sslCertString conn.sslCertPath = some cm)
    (hkm : resolveMaterial fs conn.sslKeyString conn.sslKeyPath = some km) :
    AuthorizationCodeConnection.refreshRequestPayload fs conn rt
      = some { agentOptions := { ca := [cm], key := km, cert := cm }
               strictSSL := false
               auth := none
               form := { grant_type := "refresh_token"
                         refresh_token := some rt
                         client_id := some conn.clientId
                         client_secret := some conn.clientSecret
                         scope := some "openid profile api" } } ∧
    (AuthorizationCodeConnection.refreshRequestPayload fs conn rt).map
        (fun p => p.form.code) = some none := by
  have hne : rt.isEmpty = false := by
    rw [Bool.eq_false_iff]
    intro hx
    exact hrt ((String.isEmpty_iff rt).mp hx)
  constructor <;>
    simp [AuthorizationCodeConnection.refreshRequestPayload,
      AuthorizationCodeConnection.getAccessTokenPayload,
      AuthorizationCodeConnection.buildRefreshTokenRequestBody,
      hne, hcm, hkm]

/-- C4 witness: refresh token `"RT"` with inline TLS material. -/
theorem refresh_payload_fields_witness :
    AuthorizationCodeConnection.refreshRequestPayload (fun _ => none)
        ⟨"authorization_code", "https://tok", "CID", "CSEC", "AUTHCODE",
          "https://cb", none, none, some "CERT", some "KEY"⟩ "RT"
      = some { agentOptions := { ca := ["CERT"], key := "KEY", cert := "CERT" }
               strictSSL := false
               auth := none
               form := { grant_type := "refresh_token"
                         refresh_token := some "RT"
                         client_id := some "CID"
                         client_secret := some "CSEC"
                         scope := some "openid profile api" } } ∧
    (AuthorizationCodeConnection.refreshRequestPayload (fun _ => none)
        ⟨"authorization_code", "https://tok", "CID", "CSEC", "AUTHCODE",
          "https://cb", none, none, some "CERT", some "KEY"⟩ "RT").map
        (fun p => p.form.code) = some none :=
  refresh_payload_fields (fun _ => none)
    ⟨"authorization_code", "https://tok", "CID", "CSEC", "AUTHCODE",
      "https://cb", none, none, some "CERT", some "KEY"⟩ "RT" (by decide)
    "CERT" "KEY" rfl rfl

/-! ### C8: TLS material resolution in all three builders -/

/-- C8: every payload built by any of the three request builders carries
`strictSSL = false`, a `cert` (and sole `ca` entry) resolved from the
inline `sslCertString` when that is supplied and otherwise from the file
at `sslCertPath`, and independently a `key` from `sslKeyString` or the
file at `sslKeyPath`.  The last four conjuncts pin the resolved values to
the claim's source rule. -/
theorem builders_tls_material (fs : String → Option String)
    (conn : ADPAPIConnection) (cm km : String)
    (hcm : resolveMaterial fs conn.sslCertString conn.sslCertPath = some cm)
    (hkm : resolveMaterial fs conn.sslKeyString conn.sslKeyPath = some km) :
    ClientCredentialsConnection.buildTokenRequestBody fs conn
      = some { agentOptions := { ca := [cm], key := km, cert := cm }
               strictSSL := false
               auth := some { user := conn.clientId, pass := conn.clientSecret,
                              sendImmediately := true }
               form := { grant_type := conn.granttype } } ∧
    AuthorizationCodeConnection.buildTokenRequestBody fs conn
      = some { agentOptions := { ca := [cm], key := km, cert := cm }
               strictSSL := false
               auth := none
               form := { grant_type := conn.granttype
                         code := some conn.authorizationCode
                         redirect_uri := some conn.callbackUrl
                         client_id := some conn.clientId
                         client_secret := some conn.clientSecret } } ∧
    (∀ rt, AuthorizationCodeConnection.buildRefreshTokenRequestBody fs conn rt
      = some { agentOptions := { ca := [cm], key := km, cert := cm }
               strictSSL := false
               auth := none
               form := { grant_type := "refresh_token"
                         refresh_token := some rt
                         client_id := some conn.clientId
                         client_secret := some conn.clientSecret
                         scope := some "openid profile api" } }) ∧
    (jsTruthy conn.sslCertString = true → conn.sslCertString = some cm) ∧
    (conn.sslCertString = none → readFileSync fs conn.sslCertPath = some cm) ∧
    (jsTruthy conn.sslKeyString = true → conn.sslKeyString = some km) ∧
    (conn.sslKeyString = none → readFileSync fs conn.sslKeyPath = some km) := by
  refine ⟨?_, ?_, fun rt => ?_, ?_, ?_, ?_, ?_⟩
  · simp [ClientCredentialsConnection.buildTokenRequestBody, hcm, hkm]
  · simp [AuthorizationCodeConnection.buildTokenRequestBody, hcm, hkm]
  · simp [AuthorizationCodeConnection.buildRefreshTokenRequestBody, hcm, hkm]
  · intro h
    simpa [resolveMaterial, h] using hcm
  · intro h
    simpa [resolveMaterial, h, jsTruthy] using hcm
  · intro h
    simpa [resolveMaterial, h] using hkm
  · intro h
    simpa [resolveMaterial, h, jsTruthy] using hkm

/-- C8 witness: inline TLS material `"CERT"`/`"KEY"` resolves without any
file read. -/
theorem builders_tls_material_witness :
    ClientCredentialsConnection.buildTokenRequestBody (fun _ => none)
        ⟨"client_credentials", "https://tok", "CID", "CSEC", "AUTHCODE",
          "https://cb", none, none, some "CERT", some "KEY"⟩
      = some { agentOptions := { ca := ["CERT"], key := "KEY", cert := "CERT" }
               strictSSL := false
               auth := some { user := "CID", pass := "CSEC",
                              sendImmediately := true }
               form := { grant_type := "client_credentials" } } ∧
    AuthorizationCodeConnection.buildTokenRequestBody (fun _ => none)
        ⟨"client_credentials", "https://tok", "CID", "CSEC", "AUTHCODE",
          "https://cb", none, none, some "CERT", some "KEY"⟩
      = some { agentOptions := { ca := ["CERT"], key := "KEY", cert := "CERT" }
               strictSSL := false
               auth := none
               form := { grant_type := "client_credentials"
                         code := some "AUTHCODE"
                         redirect_uri := some "https://cb"
                         client_id := some "CID"
                         client_secret := some "CSEC" } } ∧
    (∀ rt, AuthorizationCodeConnection.buildRefreshTokenRequestBody
        (fun _ => none)
        ⟨"client_credentials", "https://tok", "CID", "CSEC", "AUTHCODE",
          "https://cb", none, none, some "CERT", some "KEY"⟩ rt
      = some { agentOptions := { ca := ["CERT"], key := "KEY", cert := "CERT" }
               strictSSL := false
               auth := none
               form := { grant_type := "refresh_token"
                         refresh_token := some rt
                         client_id := some "CID"
                         client_secret := some "CSEC"
                         scope := some "openid profile api" } }) ∧
    (jsTruthy (some "CERT") = true → (some "CERT" : Option String) = some "CERT") ∧
    ((some "CERT" : Option String) = none →
      readFileSync (fun _ => none) none = some "CERT") ∧
    (jsTruthy (some "KEY") = true → (some "KEY" : Option String) = some "KEY") ∧
    ((some "KEY" : Option String) = none →
      readFileSync (fun _ => none) none = some "KEY") :=
  builders_tls_material (fun _ => none)
    ⟨"client_credentials", "https://tok", "CID", "CSEC", "AUTHCODE",
      "https://cb", none, none, some "CERT", some "KEY"⟩ "CERT" "KEY" rfl rfl

/-! ### C10: the client CA list is exactly the client certificate -/

/-- C10: every payload produced by any of the three request builders has a
`ca` field that is a one-element list whose sole element is the `cert`
field — both are resolved from the same `sslCertString`-or-certificate-file
source, so the client CA and client certificate can never differ. -/
theorem builders_ca_eq_cert (fs : String → Option String)
    (conn : ADPAPIConnection) (p : Payload) :
    (ClientCredentialsConnection.buildTokenRequestBody fs conn = some p →
      p.agentOptions.ca = [p.agentOptions.cert]) ∧
    (AuthorizationCodeConnection.buildTokenRequestBody fs conn = some p →
      p.agentOptions.ca = [p.agentOptions.cert]) ∧
    (∀ rt, AuthorizationCodeConnection.buildRefreshTokenRequestBody fs conn rt
        = some p → p.agentOptions.ca = [p.agentOptions.cert]) := by
  refine ⟨?_, ?_, fun rt => ?_⟩ <;>
    (intro h
     rcases hcm : resolveMaterial fs conn.sslCertString conn.sslCertPath
       with _ | cm <;>
       rcases hkm : resolveMaterial fs conn.sslKeyString conn.sslKeyPath
         with _ | km <;>
       simp only [ClientCredentialsConnection.buildTokenRequestBody,
         AuthorizationCodeConnection.buildTokenRequestBody,
         AuthorizationCodeConnection.buildRefreshTokenRequestBody,
         hcm, hkm] at h <;>
       first
         | exact Option.noConfusion h
         | (rw [Option.some_inj] at h; subst h; rfl))

/-- C10 witness: the concrete client-credentials payload built from inline
TLS material. -/
theorem builders_ca_eq_cert_witness :
    ({ agentOptions := { ca := ["CERT"], key := "KEY", cert := "CERT" }
       strictSSL := false
       auth := some { user := "CID", pass := "CSEC", sendImmediately := true }
       form := { grant_type := "client_credentials" } } :
        Payload).agentOptions.ca
      = [({ agentOptions := { ca := ["CERT"], key := "KEY", cert := "CERT" }
            strictSSL := false
            auth := some { user := "CID", pass := "CSEC",
                           sendImmediately := true }
            form := { grant_type := "client_credentials" } } :
              Payload).agentOptions.cert] :=
  (builders_ca_eq_cert (fun _ => none)
    ⟨"client_credentials", "https://tok", "CID", "CSEC", "AUTHCODE",
      "https://cb", none, none, some "CERT", some "KEY"⟩
    { agentOptions := { ca := ["CERT"], key := "KEY", cert := "CERT" }
      strictSSL := false
      auth := some { user := "CID", pass := "CSEC", sendImmediately := true }
      form := { grant_type := "client_credentials" } }).1 rfl
